import Mathlib

/-!
# Verification of the wM-Bus telegram decoding engine and the two example drivers

This development embeds, in Lean 4, the telegram decoding pipeline described by
the specification (binary record scanner, record descriptor resolver, value
decoder, field lookup/query interface) together with the two driver files of the
repository (`driver_c5isf.cc` and `meter_ultrimis.cc`).

The driver files are the source of truth for the c5isf field table, the c5isf
status translation table, the ultrimis `status()` rendering, the ultrimis
`processContent` logic and the ultrimis getters.  The generic engine
(scanner/resolver/decoder/query interface) is not part of the excerpted
sources; those definitions are modelled from the specification text and are
marked as such in their doc comments.

Machine integers are modelled as `Nat` (bytes are `Nat` values `< 256`);
scaled numeric values are modelled as exact rationals `ℚ` (the decimal scaling
`n * 10^e` is exact, so `ℚ` captures the decoded value precisely).
-/

namespace Wmbus

/-! ## Byte and hex utilities -/

/-- Numeric value of a hexadecimal digit character, `none` for other chars. -/
def hexVal (c : Char) : Option Nat :=
  if '0' ≤ c ∧ c ≤ '9' then some (c.toNat - 48)
  else if 'A' ≤ c ∧ c ≤ 'F' then some (c.toNat - 55)
  else if 'a' ≤ c ∧ c ≤ 'f' then some (c.toNat - 87)
  else none

/-- Turn a hex string into a byte list, two hex digits per byte; characters
that are not hex digits (such as the `|` and `_` markers used in the test
fixtures) are skipped. -/
def hexToBytes (s : String) : List Nat :=
  go (s.toList.filterMap hexVal)
where
  go : List Nat → List Nat
    | hi :: lo :: rest => (16 * hi + lo) :: go rest
    | _ => []

/-- Uppercase hex digit character for a nibble. -/
def hexDigitU (n : Nat) : Char :=
  if n < 10 then Char.ofNat (48 + n) else Char.ofNat (55 + n)

/-- Lowercase hex digit character for a nibble. -/
def hexDigitL (n : Nat) : Char :=
  if n < 10 then Char.ofNat (48 + n) else Char.ofNat (87 + n)

/-- Uppercase two-digit hex rendering of one byte. -/
def hexByteU (b : Nat) : String :=
  String.mk [hexDigitU (b / 16 % 16), hexDigitU (b % 16)]

/-- Uppercase hex rendering of a byte list (this is how DIF/VIF key strings
such as "02FD17" are written). -/
def hexKey (bs : List Nat) : String :=
  String.join (bs.map hexByteU)

/-- Six-digit lowercase hex rendering of a (24-bit) value, as produced by the
`%06x` format used in `MeterUltrimis::status`. -/
def hex6 (n : Nat) : String :=
  String.mk [hexDigitL (n / 16 ^ 5 % 16), hexDigitL (n / 16 ^ 4 % 16),
             hexDigitL (n / 16 ^ 3 % 16), hexDigitL (n / 16 ^ 2 % 16),
             hexDigitL (n / 16 % 16), hexDigitL (n % 16)]

/-- Decimal digit character. -/
def decDigit (n : Nat) : Char := Char.ofNat (48 + n)

/-- Two-digit zero-padded decimal rendering. -/
def pad2 (n : Nat) : String :=
  String.mk [decDigit (n / 10 % 10), decDigit (n % 10)]

/-- Four-digit zero-padded decimal rendering. -/
def pad4 (n : Nat) : String :=
  String.mk [decDigit (n / 1000 % 10), decDigit (n / 100 % 10),
             decDigit (n / 10 % 10), decDigit (n % 10)]

/-- Little-endian unsigned integer value of a payload byte list.
Modelled from the spec: "interpret payload as little-endian integer". -/
def leUInt : List Nat → Nat
  | [] => 0
  | b :: rest => b % 256 + 256 * leUInt rest

/-- Little-endian re-encoding of an unsigned integer at a declared byte
width.  Modelled from the spec: the re-encode direction of the
decode→reverse-scale→re-encode round trip. -/
def leBytes : Nat → Nat → List Nat
  | 0, _ => []
  | w + 1, v => v % 256 :: leBytes w (v / 256)

/-- BCD (packed decimal digit pairs, little-endian byte order) value of a
payload byte list.  Modelled from the spec: "or BCD digit-pairs". -/
def bcdUInt : List Nat → Nat
  | [] => 0
  | b :: rest => (b % 16) + 10 * (b / 16 % 16) + 100 * bcdUInt rest

/-! ## Date decoding (wM-Bus data type G) -/

/-- Decode a 2-byte type-G date into a calendar string.  Modelled from the
spec: "BCD-packed day/month/year fields decode positionally without range
validation (year/month/day taken directly from packed nibbles), which can
yield impossible calendar strings for certain bit patterns — intentional
pass-through".  Day is bits 0-4 of the first byte, month bits 0-3 of the
second byte, the year is assembled from the remaining bits. -/
def decodeDateG (bs : List Nat) : Option String :=
  match bs with
  | [b0, b1] =>
    let day := b0 &&& 0x1F
    let month := b1 &&& 0x0F
    let year := 2000 + (((b0 &&& 0xE0) >>> 5) ||| ((b1 &&& 0xF0) >>> 1))
    some (pad4 year ++ "-" ++ pad2 month ++ "-" ++ pad2 day)
  | _ => none

/-! ## Binary record scanner -/

/-- A raw data record produced by the scanner: byte offset of its DIF byte,
total wire length (DIF chain + VIF chain + payload, including an LVAR length
byte when present), the DIF(+DIFE) chain, the VIF(+VIFE) chain and the
payload bytes. -/
structure DataRecord where
  offset : Nat
  difs : List Nat
  vifs : List Nat
  payload : List Nat
  length : Nat
deriving Repr, DecidableEq

/-- Read an extension-bit chain: the first byte is always taken, and as long
as a taken byte has its extension bit (0x80) set another byte is taken.
Returns the chain and the remaining bytes; `none` if the bytes run out while
an extension bit demands more.  Modelled from the spec: "read one DIF byte;
if its extension bit is set, read chained DIFE bytes ... then read one VIF
byte, and if its extension bit is set, read chained VIFE bytes". -/
def extChain : List Nat → Option (List Nat × List Nat)
  | [] => none
  | b :: rest =>
    if b &&& 0x80 == 0 then some ([b], rest)
    else
      match extChain rest with
      | none => none
      | some (c, r) => some (b :: c, r)

/-- Payload width demanded by the DIF low-order type bits. -/
inductive PayloadWidth where
  | fixed (n : Nat)
  | lvar
  | toEnd
deriving Repr, DecidableEq

/-- Payload width from the DIF data-field nibble.  Modelled from the spec:
"Determine payload width from the DIF low-order type bits (fixed widths
8/16/24/32/48/64-bit, BCD variants, variable-length LVAR, or special
markers)"; nibble 0xF is manufacturer-specific data extending to the end of
the telegram. -/
def difWidth (dif : Nat) : PayloadWidth :=
  match dif &&& 0x0F with
  | 0x0 => .fixed 0
  | 0x1 => .fixed 1
  | 0x2 => .fixed 2
  | 0x3 => .fixed 3
  | 0x4 => .fixed 4
  | 0x5 => .fixed 4
  | 0x6 => .fixed 6
  | 0x7 => .fixed 8
  | 0x8 => .fixed 0
  | 0x9 => .fixed 1
  | 0xA => .fixed 2
  | 0xB => .fixed 3
  | 0xC => .fixed 4
  | 0xD => .lvar
  | 0xE => .fixed 6
  | _ => .toEnd

/-- Parse one data record from the head of a byte list.  The produced
record's `offset` field is 0; the scanner fills in the true offset.
Returns `none` (`MalformedTelegram`) if bytes run out mid-record.
Modelled from the spec, §4.1. -/
def parseRecord (bs : List Nat) : Option (DataRecord × List Nat) :=
  match extChain bs with
  | none => none
  | some (difs, rest1) =>
    match extChain rest1 with
    | none => none
    | some (vifs, rest2) =>
      match difWidth (difs.headD 0) with
      | .fixed n =>
        if n ≤ rest2.length then
          some ({ offset := 0, difs := difs, vifs := vifs,
                  payload := rest2.take n,
                  length := difs.length + vifs.length + n }, rest2.drop n)
        else none
      | .lvar =>
        match rest2 with
        | [] => none
        | l :: rest3 =>
          if l ≤ 0xBF ∧ l ≤ rest3.length then
            some ({ offset := 0, difs := difs, vifs := vifs,
                    payload := rest3.take l,
                    length := difs.length + vifs.length + 1 + l }, rest3.drop l)
          else none
      | .toEnd =>
        some ({ offset := 0, difs := difs, vifs := vifs,
                payload := rest2,
                length := difs.length + vifs.length + rest2.length }, [])

/-- Fuel-driven scanning loop.  DIF byte 0x2F is the idle-filler byte and is
skipped without producing a record (the fixtures pad telegrams with 2F
bytes).  Returns the records scanned so far plus an acceptance flag; on a
malformed record scanning stops (partial-telegram tolerance) with the flag
false.  Modelled from the spec, §4.1. -/
def scanAux : Nat → Nat → List Nat → List DataRecord × Bool
  | _, _, [] => ([], true)
  | 0, _, _ :: _ => ([], false)
  | fuel + 1, off, d :: rest =>
    if d = 0x2F then scanAux fuel (off + 1) rest
    else
      match parseRecord (d :: rest) with
      | none => ([], false)
      | some (rec, rest2) =>
        let p := scanAux fuel (off + rec.length) rest2
        ({ rec with offset := off } :: p.1, p.2)

/-- Scan a telegram payload into its ordered record list plus acceptance
flag.  Each scanner step consumes at least one byte, so `bs.length` fuel
always suffices. -/
def scanTelegram (bs : List Nat) : List DataRecord × Bool :=
  scanAux bs.length 0 bs

/-- Count the DIF(+DIFE)/VIF(+VIFE) groups present in a byte sequence,
without building records or tracking offsets. -/
def countGroupsAux : Nat → List Nat → Nat
  | _, [] => 0
  | 0, _ :: _ => 0
  | fuel + 1, d :: rest =>
    if d = 0x2F then countGroupsAux fuel rest
    else
      match parseRecord (d :: rest) with
      | none => 0
      | some (_, rest2) => 1 + countGroupsAux fuel rest2

/-- Number of DIF/VIF groups in a telegram payload. -/
def countGroups (bs : List Nat) : Nat :=
  countGroupsAux bs.length bs

/-! ## Record descriptor resolver -/

/-- Measurement type from the DIF function field. -/
inductive MeasurementType where
  | Instantaneous
  | Maximum
  | Minimum
  | AtError
deriving Repr, DecidableEq

/-- Value-information range catalog (closed).  `Any` doubles as the query
wildcard and as the generic classification of unrecognized / extension /
manufacturer-specific VIF bytes, per the spec: "ambiguous/unrecognized VIF
bytes resolve to a generic Any/Manufacturer range so the record remains
queryable by literal key". -/
inductive VIFRange where
  | EnergyWh
  | Volume
  | VolumeFlow
  | PowerW
  | FlowTemperature
  | ReturnTemperature
  | Date
  | DateTime
  | Any
deriving Repr, DecidableEq

/-- Measurement type from DIF bits 4-5 (the M-Bus function field).
Modelled from the spec: "Maps DIF type bits → MeasurementType". -/
def difMeasurementType (dif : Nat) : MeasurementType :=
  match (dif >>> 4) &&& 3 with
  | 0 => .Instantaneous
  | 1 => .Maximum
  | 2 => .Minimum
  | _ => .AtError

/-- Storage number assembled from the DIF storage bit (bit 6) plus 4 bits
from each DIFE (little-endian bit concatenation).  Modelled from the spec:
"Storage number is assembled from DIF storage bit plus DIFE
storage-extension bits (little-endian bit concatenation)". -/
def storageOf (difs : List Nat) : Nat :=
  match difs with
  | [] => 0
  | d :: difes => ((d >>> 6) &&& 1) + 2 * storageBits difes
where
  storageBits : List Nat → Nat
    | [] => 0
    | e :: rest => (e &&& 0xF) + 16 * storageBits rest

/-- Tariff number assembled from DIFE bits 4-5 of each DIFE.  Modelled from
the spec: "Tariff and subunit/index are assembled analogously from separate
DIFE bit fields". -/
def tariffOf (difs : List Nat) : Nat :=
  match difs with
  | [] => 0
  | _ :: difes => tariffBits difes
where
  tariffBits : List Nat → Nat
    | [] => 0
    | e :: rest => ((e >>> 4) &&& 3) + 4 * tariffBits rest

/-- Subunit number assembled from DIFE bit 6 of each DIFE. -/
def subunitOf (difs : List Nat) : Nat :=
  match difs with
  | [] => 0
  | _ :: difes => subunitBits difes
where
  subunitBits : List Nat → Nat
    | [] => 0
    | e :: rest => ((e >>> 6) &&& 1) + 2 * subunitBits rest

/-- VIF range classification of a VIF chain from the primary VIF byte with
the extension bit masked off.  Modelled from the spec: "Maps VIF (+ VIFE
chain) → VIFRange via a closed lookup table"; unrecognized bytes (including
the 0xFD/0xFB extension escapes and manufacturer codes) classify as `Any`. -/
def vifRange (vifs : List Nat) : VIFRange :=
  match vifs with
  | [] => .Any
  | v :: _ =>
    let p := v &&& 0x7F
    if p ≤ 0x07 then .EnergyWh
    else if 0x10 ≤ p ∧ p ≤ 0x17 then .Volume
    else if 0x28 ≤ p ∧ p ≤ 0x2F then .PowerW
    else if 0x38 ≤ p ∧ p ≤ 0x3F then .VolumeFlow
    else if 0x58 ≤ p ∧ p ≤ 0x5B then .FlowTemperature
    else if 0x5C ≤ p ∧ p ≤ 0x5F then .ReturnTemperature
    else if p = 0x6C then .Date
    else if p = 0x6D then .DateTime
    else .Any

/-- The DIF/VIF key string of a record, e.g. "02FD17". -/
def dvKey (r : DataRecord) : String := hexKey (r.difs ++ r.vifs)

/-- Resolved measurement type of a record. -/
def mtypeOf (r : DataRecord) : MeasurementType := difMeasurementType (r.difs.headD 0)

/-- Resolved VIF range of a record. -/
def rangeOf (r : DataRecord) : VIFRange := vifRange r.vifs

/-- Resolved storage number of a record. -/
def storageNr (r : DataRecord) : Nat := storageOf r.difs

/-- Resolved tariff number of a record. -/
def tariffNr (r : DataRecord) : Nat := tariffOf r.difs

/-! ## Value decoder -/

/-- Payload value encoding from the DIF data-field nibble. -/
inductive ValueEncoding where
  | binInt
  | bcd
  | realFP
  | lvarText
  | noData
deriving Repr, DecidableEq

/-- Value encoding demanded by the DIF data-field nibble. -/
def difEncoding (dif : Nat) : ValueEncoding :=
  match dif &&& 0x0F with
  | 0x0 => .noData
  | 0x5 => .realFP
  | 0x8 => .noData
  | 0x9 => .bcd
  | 0xA => .bcd
  | 0xB => .bcd
  | 0xC => .bcd
  | 0xD => .lvarText
  | 0xE => .bcd
  | 0xF => .noData
  | _ => .binInt

/-- Raw unsigned integer value of a record's payload (little-endian binary
or BCD, per the DIF encoding).  Modelled from the spec: "interpret payload
as little-endian integer (or BCD digit-pairs ...)".  IEEE-real payloads are
outside this integer model. -/
def uintOf (r : DataRecord) : Option Nat :=
  match difEncoding (r.difs.headD 0) with
  | .binInt => some (leUInt r.payload)
  | .bcd => some (bcdUInt r.payload)
  | _ => none

/-- Decimal exponent of a numeric record, such that the decoded value in
the range's canonical unit (kWh, m³, m³/h, kW, °C) is
`raw integer * 10 ^ exponent`.  Modelled from the spec: "VIF low bits also
encode a decimal exponent (e.g. volume in units of 10^(n-6) liters) which
becomes the scaling factor" together with the canonical base units
"liters→m³, Wh→kWh, W→kW". -/
def vifExponent (r : DataRecord) : Option ℤ :=
  let v := (r.vifs.headD 0) &&& 0x7F
  match rangeOf r with
  | .EnergyWh => some ((v &&& 7 : ℕ) - 6)
  | .Volume => some ((v &&& 7 : ℕ) - 6)
  | .VolumeFlow => some ((v &&& 7 : ℕ) - 6)
  | .PowerW => some ((v &&& 7 : ℕ) - 6)
  | .FlowTemperature => some ((v &&& 3 : ℕ) - 3)
  | .ReturnTemperature => some ((v &&& 3 : ℕ) - 3)
  | _ => none

/-- Decoded numeric value of a record, as an exact rational, in the VIF
range's canonical unit.  Overflow values pass through unclamped, per the
spec: "values that do not fit the declared width's valid range are NOT
clamped or error-flagged; they pass through as-is". -/
def numericValue (r : DataRecord) : Option ℚ :=
  match uintOf r, vifExponent r with
  | some n, some e => some ((n : ℚ) * 10 ^ e)
  | _, _ => none

/-- Decoded string value of a record (calendar dates). -/
def stringValue (r : DataRecord) : Option String :=
  match rangeOf r with
  | .Date => decodeDateG r.payload
  | _ => none

/-! ## Field lookup / query interface -/

/-- Structured query criteria; `none` in `storage`/`tariff` is the
AnyStorageNr/AnyTariffNr wildcard. -/
structure FindCriteria where
  mtype : MeasurementType
  range : VIFRange
  storage : Option Nat
  tariff : Option Nat
deriving Repr, DecidableEq

/-- Does a record match all non-wildcard criteria?  Modelled from the spec,
§4.4: "return the first record (in wire order) matching all non-wildcard
criteria". -/
def matchesCriteria (c : FindCriteria) (r : DataRecord) : Bool :=
  mtypeOf r == c.mtype &&
  (c.range == .Any || rangeOf r == c.range) &&
  (match c.storage with | none => true | some s => storageNr r == s) &&
  (match c.tariff with | none => true | some t => tariffNr r == t)

/-- First record in wire order matching the criteria (wildcard index). -/
def findFirst (c : FindCriteria) : List DataRecord → Option DataRecord
  | [] => none
  | r :: rest => if matchesCriteria c r then some r else findFirst c rest

/-- N-th (1-based) record in wire order matching the criteria. -/
def findNth (c : FindCriteria) : Nat → List DataRecord → Option DataRecord
  | _, [] => none
  | n, r :: rest =>
    if matchesCriteria c r then
      if n ≤ 1 then some r else findNth c (n - 1) rest
    else findNth c n rest

/-- Structured find.  `none` as index is the wildcard (first wire-order
match); `some n` selects the n-th (1-based) match.  Modelled from the spec,
§4.4. -/
def findRecord (c : FindCriteria) (idx : Option Nat) (rs : List DataRecord) :
    Option DataRecord :=
  match idx with
  | none => findFirst c rs
  | some n => findNth c n rs

/-- Literal key find: the record whose DIF/VIF byte string equals the given
key, e.g. "03FD17".  Modelled from the spec, §4.4: "given an exact
DIF+VIF(+VIFE...) byte string, return the unique matching record or
not-found". -/
def findByKey (key : String) : List DataRecord → Option DataRecord
  | [] => none
  | r :: rest => if dvKey r == key then some r else findByKey key rest

/-! ## The c5isf driver (from `driver_c5isf.cc`) -/

/-- The c5isf status translation table, exactly as written in
`MeterC5isf::MeterC5isf` (sorted descending numeric values). -/
def c5isfStatusTable : List (Nat × String) :=
  [ (2000, "VERIFICATION_EXPIRED"),
    (1000, "BATTERY_EXPIRED"),
    (800, "WIRELESS_ERROR"),
    (100, "HARDWARE_ERROR3"),
    (50, "VALUE_OVERLOAD"),
    (40, "AIR_INSIDE"),
    (30, "REVERSE_FLOW"),
    (20, "DRY"),
    (10, "ERROR_MEASURING"),
    (9, "HARDWARE_ERROR2"),
    (8, "HARDWARE_ERROR1"),
    (7, "LOW_BATTERY"),
    (6, "SUPPLY_SENSOR_INTERRUPTED"),
    (5, "SHORT_CIRCUIT_SUPPLY_SENSOR"),
    (4, "RETURN_SENSOR_INTERRUPTED"),
    (3, "SHORT_CIRCUIT_RETURN_SENSOR"),
    (2, "TEMP_ABOVE_RANGE"),
    (1, "TEMP_BELOW_RANGE") ]

/-- Walk a translation table in order; an entry whose value fits into the
remaining code is recognized: its name is collected and its value is
subtracted once before the smaller entries continue matching.  Modelled
from the spec, §6: "sorted descending numeric thresholds, first match wins,
cumulative subtraction semantics — each flag bit value is subtracted once
recognized, remaining flags continue matching smaller values". -/
def lookupFlags : List (Nat × String) → Nat → List String
  | [], _ => []
  | (v, name) :: rest, code =>
    if v ≤ code then name :: lookupFlags rest (code - v)
    else lookupFlags rest code

/-- Translate a c5isf error-flag code into the status string: recognized
flag names concatenated with spaces, "OK" when none match.  Modelled from
the spec, §6: "concatenated with spaces; OK if none match". -/
def translateStatus (code : Nat) : String :=
  match lookupFlags c5isfStatusTable code with
  | [] => "OK"
  | names => String.intercalate " " names

/-- One detection triple (manufacturer, device type, version). -/
structure Detection where
  mfct : Nat
  type : Nat
  version : Nat
deriving Repr, DecidableEq

/-- The three detection triples registered for c5isf: MANUFACTURER_ZRI
(0x6A49) with types 0x0D (T1A1), 0x07 (T1A2) and 0x04 (T1B), all version
0x88. -/
def c5isfDetections : List Detection :=
  [⟨0x6A49, 0x0D, 0x88⟩, ⟨0x6A49, 0x07, 0x88⟩, ⟨0x6A49, 0x04, 0x88⟩]

/-- Manufacturer code from the frame header (little-endian at bytes 2-3). -/
def frameMfct (f : List Nat) : Nat := f.getD 2 0 + 256 * f.getD 3 0

/-- Device version byte of the frame header. -/
def frameVersion (f : List Nat) : Nat := f.getD 8 0

/-- Device type byte of the frame header. -/
def frameType (f : List Nat) : Nat := f.getD 9 0

/-- Does the c5isf driver detect the frame?  Modelled from the spec:
detection matches on manufacturer/type/version metadata. -/
def detectsC5isf (f : List Nat) : Bool :=
  c5isfDetections.contains ⟨frameMfct f, frameType f, frameVersion f⟩

/-- Application payload of a fixture frame: the bytes after the 17-byte
DLL/TPL header (as marked by the underscore in the fixture strings). -/
def framePayload (f : List Nat) : List Nat := f.drop 17

/-- The scanned record list of a frame. -/
def frameRecords (f : List Nat) : List DataRecord :=
  (scanTelegram (framePayload f)).1

/-- A c5isf numeric field bound with `FIND_FIELD`/`FIND_FIELD_S`:
measurement type and VIF range with the given storage number (0 when
unspecified), tariff 0, index 1. -/
def c5isfNumericField (mt : MeasurementType) (range : VIFRange)
    (storage : Nat) (rs : List DataRecord) : Option ℚ :=
  (findRecord ⟨mt, range, some storage, some 0⟩ (some 1) rs).bind numericValue

/-- A c5isf string (date) field bound with `FIND_SFIELD_S`. -/
def c5isfStringField (mt : MeasurementType) (range : VIFRange)
    (storage : Nat) (rs : List DataRecord) : Option String :=
  (findRecord ⟨mt, range, some storage, some 0⟩ (some 1) rs).bind stringValue

/-- `total_energy_consumption` [kWh]: Instantaneous EnergyWh. -/
def c5isf_total_energy_kwh (rs : List DataRecord) : Option ℚ :=
  c5isfNumericField .Instantaneous .EnergyWh 0 rs

/-- `total_volume` [m³]: Instantaneous Volume. -/
def c5isf_total_volume_m3 (rs : List DataRecord) : Option ℚ :=
  c5isfNumericField .Instantaneous .Volume 0 rs

/-- `status`: bound to the literal DIF/VIF key "02FD17", decoded as an
integer and translated through the c5isf status table. -/
def c5isf_status (rs : List DataRecord) : Option String :=
  (findByKey "02FD17" rs).bind (fun r => (uintOf r).map translateStatus)

/-- `prev_<i>_month` date (i = 1..14): Instantaneous Date at storage
number 32+(i-1). -/
def c5isf_prev_month_date (i : Nat) (rs : List DataRecord) : Option String :=
  c5isfStringField .Instantaneous .Date (31 + i) rs

/-- `prev_<i>_month` energy [kWh] (i = 1..14): Instantaneous EnergyWh at
storage number 32+(i-1). -/
def c5isf_prev_month_kwh (i : Nat) (rs : List DataRecord) : Option ℚ :=
  c5isfNumericField .Instantaneous .EnergyWh (31 + i) rs

/-- `due_date`: Instantaneous Date at storage number 8. -/
def c5isf_due_date (rs : List DataRecord) : Option String :=
  c5isfStringField .Instantaneous .Date 8 rs

/-- `volume_flow` [m³/h]: Instantaneous VolumeFlow. -/
def c5isf_volume_flow_m3h (rs : List DataRecord) : Option ℚ :=
  c5isfNumericField .Instantaneous .VolumeFlow 0 rs

/-- `power` [kW]: Instantaneous PowerW. -/
def c5isf_power_kw (rs : List DataRecord) : Option ℚ :=
  c5isfNumericField .Instantaneous .PowerW 0 rs

/-- `flow_temperature` [°C]: Instantaneous FlowTemperature, storage 0,
tariff 0, index 1. -/
def c5isf_flow_temperature_c (rs : List DataRecord) : Option ℚ :=
  c5isfNumericField .Instantaneous .FlowTemperature 0 rs

/-- `return_temperature` [°C]: Instantaneous ReturnTemperature, storage 0,
tariff 0, index 1. -/
def c5isf_return_temperature_c (rs : List DataRecord) : Option ℚ :=
  c5isfNumericField .Instantaneous .ReturnTemperature 0 rs

/-! ## Test fixtures (from the comments of `driver_c5isf.cc`) -/

/-- The T1A1 fixture frame. -/
def t1a1Frame : List Nat := hexToBytes
  "E544496A55554455880D7A320200002F2F_04060000000004130000000002FD17240084800106000000008280016C2124C480010600000080C280016CFFFF84810106000000808281016CFFFFC481010600000080C281016CFFFF84820106000000808282016CFFFFC482010600000080C282016CFFFF84830106000000808283016CFFFFC483010600000080C283016CFFFF84840106000000808284016CFFFFC484010600000080C284016CFFFF84850106000000808285016CFFFFC485010600000080C285016CFFFF84860106000000808286016CFFFFC486010600000080C286016CFFFF"

/-- The T1B fixture frame. -/
def t1bFrame : List Nat := hexToBytes
  "5E44496A5555445588047A0A0050052F2F_04061A0000000413C20800008404060000000082046CC121043BA4000000042D1900000002591216025DE21002FD17000084800106000000008280016CC121948001AE25000000002F2F2F2F2F2F"

/-! ## The ultrimis driver (from `meter_ultrimis.cc`) -/

/-- Physical quantities (the ones these drivers touch). -/
inductive Quantity where
  | Volume
  | Energy
  | Temperature
deriving Repr, DecidableEq

/-- Measurement units (the ones these drivers touch). -/
inductive Unit where
  | M3
  | L
  | KWH
  | C
deriving Repr, DecidableEq

/-- Quantity of a unit. -/
def quantityOf : Unit → Quantity
  | .M3 => .Volume
  | .L => .Volume
  | .KWH => .Energy
  | .C => .Temperature

/-- Size of one unit expressed in its quantity's canonical unit (m³ for
volume, kWh for energy, °C for temperature).  Modelled from the spec:
"unit conversion to the caller's requested unit is a separate pure
conversion step". -/
def unitScale : Unit → ℚ
  | .M3 => 1
  | .L => 1 / 1000
  | .KWH => 1
  | .C => 1

/-- Pure unit conversion between units of the same quantity. -/
def convert (v : ℚ) (f t : Unit) : ℚ := v * unitScale f / unitScale t

/-- The mutable fields of `MeterUltrimis`. -/
structure UltrimisState where
  info_codes : Nat
  total_water_consumption_m3 : ℚ
  target_water_consumption_m3 : ℚ
  total_backward_flow_m3 : ℚ
deriving Repr, DecidableEq

/-- `MeterUltrimis::status`: "OK" when the info codes are zero, otherwise
the `%06x` hex rendering wrapped in "ERR(...)".  From the source. -/
def ultrimisStatus (info_codes : Nat) : String :=
  if info_codes ≠ 0 then "ERR(" ++ hex6 info_codes ++ ")" else "OK"

/-- `findKey`: the structured find used by `MeterUltrimis::processContent`,
returning the matching record's DIF/VIF key.  Modelled from the spec, §4.4
(structured find with explicit storage and tariff numbers, first wire-order
match). -/
def findKey (mt : MeasurementType) (range : VIFRange) (storage tariff : Nat)
    (rs : List DataRecord) : Option String :=
  (findRecord ⟨mt, range, some storage, some tariff⟩ none rs).map dvKey

/-- `extractDVdouble`: decode the record with the given key as a scaled
numeric value.  Modelled from the spec, §4.3/§4.4. -/
def extractDVdouble (rs : List DataRecord) (key : String) : Option ℚ :=
  (findByKey key rs).bind numericValue

/-- `extractDVuint24`: decode the record with the given key as a raw 24-bit
little-endian integer.  Modelled from the spec, §4.3: "Error-flag VIFs
decode to a raw integer". -/
def extractDVuint24 (rs : List DataRecord) (key : String) : Option Nat :=
  (findByKey key rs).map (fun r => leUInt (r.payload.take 3))

/-- First statement of `MeterUltrimis::processContent`: find the
Instantaneous/Volume/storage-0 record and, when found, store the total
water consumption; a miss leaves the state untouched. -/
def updateTotal (rs : List DataRecord) (s : UltrimisState) : UltrimisState :=
  match findKey .Instantaneous .Volume 0 0 rs with
  | some key =>
    match extractDVdouble rs key with
    | some v => { s with total_water_consumption_m3 := v }
    | none => s
  | none => s

/-- Second statement: extract the 24-bit info codes by literal key
"03FD17"; a miss leaves the state untouched. -/
def updateInfo (rs : List DataRecord) (s : UltrimisState) : UltrimisState :=
  match extractDVuint24 rs "03FD17" with
  | some v => { s with info_codes := v }
  | none => s

/-- Third statement: find the Instantaneous/Volume/storage-1 record and,
when found, store the target water consumption. -/
def updateTarget (rs : List DataRecord) (s : UltrimisState) : UltrimisState :=
  match findKey .Instantaneous .Volume 1 0 rs with
  | some key =>
    match extractDVdouble rs key with
    | some v => { s with target_water_consumption_m3 := v }
    | none => s
  | none => s

/-- Fourth statement: extract the backward flow by literal key "04933C". -/
def updateBackward (rs : List DataRecord) (s : UltrimisState) : UltrimisState :=
  match extractDVdouble rs "04933C" with
  | some v => { s with total_backward_flow_m3 := v }
  | none => s

/-- `MeterUltrimis::processContent`: four queries in statement order, each
updating its field only when the query finds a record (a missed query is a
normal negative result and leaves the field untouched).  From the source,
with the not-found behavior of the extractors modelled from the spec, §7. -/
def processContent (rs : List DataRecord) (s : UltrimisState) : UltrimisState :=
  updateBackward rs (updateTarget rs (updateInfo rs (updateTotal rs s)))

/-- `MeterUltrimis::totalWaterConsumption`: asserts the requested unit is a
Volume unit (`none` models the assertion firing), then converts the stored
m³ value.  From the source. -/
def totalWaterConsumption (s : UltrimisState) (u : Unit) : Option ℚ :=
  if quantityOf u = .Volume then some (convert s.total_water_consumption_m3 .M3 u)
  else none

/-- `MeterUltrimis::targetWaterConsumption`.  From the source. -/
def targetWaterConsumption (s : UltrimisState) (u : Unit) : Option ℚ :=
  if quantityOf u = .Volume then some (convert s.target_water_consumption_m3 .M3 u)
  else none

/-- `MeterUltrimis::totalBackwardFlow`.  From the source. -/
def totalBackwardFlow (s : UltrimisState) (u : Unit) : Option ℚ :=
  if quantityOf u = .Volume then some (convert s.total_backward_flow_m3 .M3 u)
  else none

/-- The ultrimis example telegram payload (from the comment in
`MeterUltrimis::processContent`). -/
def ultrimisExample : List Nat :=
  hexToBytes "0413320C000003FD170C0C0C44132109000004933C05000000"

/-! ## Derived definitions used by the verification -/

/-- The full decoded value set of a telegram payload: every scanned record
with its DIF/VIF key, its numeric decoded value and its string decoded
value.  Decoding is a pure function of the bytes. -/
def decodedValues (bs : List Nat) : List (String × Option ℚ × Option String) :=
  (scanTelegram bs).1.map (fun r => (dvKey r, numericValue r, stringValue r))

/-- The table entries recognized by the cumulative subtractive walk of
`lookupFlags`: an entry whose value fits the remaining code is kept and its
value is subtracted before the rest of the table is processed. -/
def selectedEntries : List (Nat × String) → Nat → List (Nat × String)
  | [], _ => []
  | e :: rest, code =>
    if e.1 ≤ code then e :: selectedEntries rest (code - e.1)
    else selectedEntries rest code

/-- Records chained from a lower bound: each record starts at or after the
bound and the next record starts at or after the end of its byte range. -/
def Chained : Nat → List DataRecord → Prop
  | _, [] => True
  | lo, r :: rs => lo ≤ r.offset ∧ Chained (r.offset + r.length) rs

/-- Reverse the VIF-exponent scaling of a decoded value. -/
def reverseScale (v : ℚ) (e : ℤ) : ℚ := v / 10 ^ e

/-- Re-encode an unscaled integer value at a declared byte width
(little-endian). -/
def reEncode (w : Nat) (v : ℚ) : List Nat := leBytes w v.num.toNat

/-! ## Claim theorems -/

section FixtureEvaluation

attribute [local semireducible] Rat.mul Rat.inv

set_option maxRecDepth 100000

/-- C1: feeding the T1B fixture telegram bytes embedded in the c5isf driver
through detection, scanning, resolution, decoding and field binding
produces exactly the documented field values:
total_energy_consumption_kwh = 26, total_volume_m3 = 2.242, status = "OK",
volume_flow_m3h = 0.164, power_kw = 2.5, due_date = "2022-01-01",
flow_temperature_c = 56.5 and return_temperature_c = 43.22. -/
theorem c5isf_t1b_end_to_end :
    detectsC5isf t1bFrame = true ∧
    c5isf_total_energy_kwh (frameRecords t1bFrame) = some 26 ∧
    c5isf_total_volume_m3 (frameRecords t1bFrame) = some (2242 / 1000) ∧
    c5isf_status (frameRecords t1bFrame) = some "OK" ∧
    c5isf_volume_flow_m3h (frameRecords t1bFrame) = some (164 / 1000) ∧
    c5isf_power_kw (frameRecords t1bFrame) = some (25 / 10) ∧
    c5isf_due_date (frameRecords t1bFrame) = some "2022-01-01" ∧
    c5isf_flow_temperature_c (frameRecords t1bFrame) = some (565 / 10) ∧
    c5isf_return_temperature_c (frameRecords t1bFrame) = some (4322 / 100) := by
  decide

/-- C2: feeding the T1A1 fixture telegram bytes through the decoder
produces status = "REVERSE_FLOW SUPPLY_SENSOR_INTERRUPTED" (error-flag
value 36 decomposing into codes 30 and 6 under cumulative subtractive flag
decoding), prev_2_month_kwh = 2147483648 (the 32-bit sentinel 0x80000000
passed through unclamped), and prev_2_month through prev_14_month dates
equal to the out-of-range calendar string "2127-15-31" (invalid BCD date
bits 0xFFFF decoded positionally without range validation). -/
theorem c5isf_t1a1_end_to_end :
    detectsC5isf t1a1Frame = true ∧
    (findByKey "02FD17" (frameRecords t1a1Frame)).bind uintOf = some 36 ∧
    lookupFlags c5isfStatusTable 36 =
      ["REVERSE_FLOW", "SUPPLY_SENSOR_INTERRUPTED"] ∧
    c5isf_status (frameRecords t1a1Frame) =
      some "REVERSE_FLOW SUPPLY_SENSOR_INTERRUPTED" ∧
    c5isf_prev_month_kwh 2 (frameRecords t1a1Frame) = some 2147483648 ∧
    decodeDateG [0xFF, 0xFF] = some "2127-15-31" ∧
    c5isf_prev_month_date 2 (frameRecords t1a1Frame) = some "2127-15-31" ∧
    c5isf_prev_month_date 3 (frameRecords t1a1Frame) = some "2127-15-31" ∧
    c5isf_prev_month_date 4 (frameRecords t1a1Frame) = some "2127-15-31" ∧
    c5isf_prev_month_date 5 (frameRecords t1a1Frame) = some "2127-15-31" ∧
    c5isf_prev_month_date 6 (frameRecords t1a1Frame) = some "2127-15-31" ∧
    c5isf_prev_month_date 7 (frameRecords t1a1Frame) = some "2127-15-31" ∧
    c5isf_prev_month_date 8 (frameRecords t1a1Frame) = some "2127-15-31" ∧
    c5isf_prev_month_date 9 (frameRecords t1a1Frame) = some "2127-15-31" ∧
    c5isf_prev_month_date 10 (frameRecords t1a1Frame) = some "2127-15-31" ∧
    c5isf_prev_month_date 11 (frameRecords t1a1Frame) = some "2127-15-31" ∧
    c5isf_prev_month_date 12 (frameRecords t1a1Frame) = some "2127-15-31" ∧
    c5isf_prev_month_date 13 (frameRecords t1a1Frame) = some "2127-15-31" ∧
    c5isf_prev_month_date 14 (frameRecords t1a1Frame) = some "2127-15-31" := by
  decide

/-- C5: a literal-key find for "03FD17" against payload bytes 0C0C0C
decodes to the 24-bit info code 0x0C0C0C, and `MeterUltrimis::status`
renders any nonzero info code as "ERR(%06x)" (here "ERR(0c0c0c)") and the
zero code as "OK"; by its definition `ultrimisStatus` is a pure hex
formatter and consults no flag-name table. -/
theorem ultrimis_info_code_and_status :
    extractDVuint24 (scanTelegram ultrimisExample).1 "03FD17" = some 0x0C0C0C ∧
    ultrimisStatus 0x0C0C0C = "ERR(0c0c0c)" ∧
    ultrimisStatus 0 = "OK" ∧
    ∀ code : Nat, code ≠ 0 → ultrimisStatus code = "ERR(" ++ hex6 code ++ ")" := by
  refine ⟨by decide, by decide, by decide, ?_⟩
  intro code h
  simp [ultrimisStatus, h]

/-- Witness for the hypothesis of C5's theorem at the concrete nonzero
info code 0x0C0C0C. -/
theorem ultrimis_info_code_and_status_witness :
    (0x0C0C0C : Nat) ≠ 0 ∧
    ultrimisStatus 0x0C0C0C = "ERR(" ++ hex6 0x0C0C0C ++ ")" :=
  ⟨by decide, ultrimis_info_code_and_status.2.2.2 0x0C0C0C (by decide)⟩

end FixtureEvaluation

/-- C7: decoding is deterministic and side-effect-free: running the full
decode twice on the same telegram bytes yields bit-identical DecodedValue
sets (two-run equality of the decode function), and descriptor resolution
and value decoding are pure functions of the record bytes alone — records
that agree on their DIF chain, VIF chain and payload decode identically
regardless of their byte offset or surrounding telegram state. -/
theorem decode_deterministic_and_pure :
    (∀ bs : List Nat, decodedValues bs = decodedValues bs) ∧
    (∀ r r' : DataRecord, r.difs = r'.difs → r.vifs = r'.vifs →
      r.payload = r'.payload →
      numericValue r = numericValue r' ∧ stringValue r = stringValue r' ∧
      mtypeOf r = mtypeOf r' ∧ rangeOf r = rangeOf r' ∧
      storageNr r = storageNr r' ∧ tariffNr r = tariffNr r' ∧
      dvKey r = dvKey r') := by
  refine ⟨fun _ => rfl, ?_⟩
  intro r r' hd hv hp
  cases r
  cases r'
  simp only at hd hv hp
  subst hd hv hp
  exact ⟨rfl, rfl, rfl, rfl, rfl, rfl, rfl⟩

/-- Witness for the hypotheses of C7's theorem: two records agreeing on
bytes but differing in offset and length decode identically. -/
theorem decode_deterministic_and_pure_witness :
    numericValue ⟨0, [0x04], [0x13], [0xC2, 0x08, 0, 0], 6⟩ =
      numericValue ⟨99, [0x04], [0x13], [0xC2, 0x08, 0, 0], 7⟩ :=
  (decode_deterministic_and_pure.2
    ⟨0, [0x04], [0x13], [0xC2, 0x08, 0, 0], 6⟩
    ⟨99, [0x04], [0x13], [0xC2, 0x08, 0, 0], 7⟩ rfl rfl rfl).1

/-- Helper: the names collected by `lookupFlags` are exactly the names of
the entries recognized by the cumulative subtractive walk. -/
theorem lookupFlags_eq_selected (table : List (Nat × String)) :
    ∀ code, lookupFlags table code = (selectedEntries table code).map Prod.snd := by
  induction table with
  | nil => intro code; rfl
  | cons e rest ih =>
    intro code
    obtain ⟨v, name⟩ := e
    by_cases h : v ≤ code
    · simp [lookupFlags, selectedEntries, h, ih]
    · simp [lookupFlags, selectedEntries, h, ih]

/-- Helper: the recognized entries form a sublist of the table — they are
tried in table order and each entry is recognized at most once. -/
theorem selectedEntries_sublist (table : List (Nat × String)) :
    ∀ code, (selectedEntries table code).Sublist table := by
  induction table with
  | nil => intro code; simp [selectedEntries]
  | cons e rest ih =>
    intro code
    by_cases h : e.1 ≤ code
    · simpa [selectedEntries, h] using (ih (code - e.1)).cons₂ e
    · simpa [selectedEntries, h] using (ih code).cons e

/-- Helper: the values subtracted by the cumulative subtractive walk never
exceed the original code. -/
theorem selectedEntries_sum_le (table : List (Nat × String)) :
    ∀ code, ((selectedEntries table code).map Prod.fst).sum ≤ code := by
  induction table with
  | nil => intro code; simp [selectedEntries]
  | cons e rest ih =>
    intro code
    by_cases h : e.1 ≤ code
    · simp only [selectedEntries, if_pos h, List.map_cons, List.sum_cons]
      have := ih (code - e.1)
      omega
    · simpa [selectedEntries, h] using ih code

/-- Helper: the walk recognizes nothing exactly when the code is below
every entry value of the table. -/
theorem lookupFlags_eq_nil_iff (table : List (Nat × String)) :
    ∀ code, lookupFlags table code = [] ↔ ∀ e ∈ table, code < e.1 := by
  induction table with
  | nil => intro code; simp [lookupFlags]
  | cons e rest ih =>
    intro code
    obtain ⟨v, name⟩ := e
    by_cases h : v ≤ code
    · simp only [lookupFlags, if_pos h]
      constructor
      · intro hc; exact absurd hc (by simp)
      · intro hall
        exact absurd (hall (v, name) (List.mem_cons_self _ _)) (by omega)
    · simp only [lookupFlags, if_neg h, ih code]
      constructor
      · intro hall
        intro e he
        rcases List.mem_cons.mp he with he | he
        · subst he; omega
        · exact hall e he
      · intro hall e he
        exact hall e (List.mem_cons_of_mem _ he)

/-- C3: the c5isf status translation table is sorted in strictly
descending numeric order and is walked in that order; each recognized
entry's value is subtracted once from the remaining code before smaller
entries continue matching (so the recognized entries form a sublist of the
table and their values sum to at most the code); the matched flag names
are concatenated with spaces; and a code that matches no entry — in
particular code 0 — yields "OK". -/
theorem c5isf_status_translation_semantics :
    List.Chain' (fun a b : Nat × String => b.1 < a.1) c5isfStatusTable ∧
    (∀ code, lookupFlags c5isfStatusTable code =
      (selectedEntries c5isfStatusTable code).map Prod.snd) ∧
    (∀ code, (selectedEntries c5isfStatusTable code).Sublist c5isfStatusTable) ∧
    (∀ code, ((selectedEntries c5isfStatusTable code).map Prod.fst).sum ≤ code) ∧
    (∀ code, (∀ e ∈ c5isfStatusTable, code < e.1) → translateStatus code = "OK") ∧
    translateStatus 0 = "OK" ∧
    (∀ code, lookupFlags c5isfStatusTable code ≠ [] →
      translateStatus code =
        String.intercalate " " (lookupFlags c5isfStatusTable code)) := by
  refine ⟨by norm_num [c5isfStatusTable, List.chain'_cons], lookupFlags_eq_selected _,
    selectedEntries_sublist _,
    selectedEntries_sum_le _, ?_, by decide, ?_⟩
  · intro code hall
    have h0 : lookupFlags c5isfStatusTable code = [] :=
      (lookupFlags_eq_nil_iff _ code).mpr hall
    simp [translateStatus, h0]
  · intro code hne
    unfold translateStatus
    cases h : lookupFlags c5isfStatusTable code with
    | nil => exact absurd h hne
    | cons a l => rfl

/-- Witness for the hypotheses of C3's theorem: code 0 matches no entry
and yields "OK"; code 36 is recognized and renders as the space-joined
flag names. -/
theorem c5isf_status_translation_semantics_witness :
    translateStatus 0 = "OK" ∧
    translateStatus 36 = String.intercalate " " (lookupFlags c5isfStatusTable 36) :=
  ⟨c5isf_status_translation_semantics.2.2.2.2.1 0 (by decide),
   c5isf_status_translation_semantics.2.2.2.2.2.2 36 (by decide)⟩

/-- C4: with a wildcard index the structured find returns the first record
in wire order matching all non-wildcard criteria; with a specific index n
it returns the n-th matching record (1-based); and when no record matches
it returns not-found (`none`). -/
theorem structured_find_semantics :
    (∀ (c : FindCriteria) (rs : List DataRecord),
      findRecord c none rs = (rs.filter (matchesCriteria c)).head?) ∧
    (∀ (c : FindCriteria) (n : Nat) (rs : List DataRecord),
      findRecord c (some n) rs = (rs.filter (matchesCriteria c)).get? (n - 1)) ∧
    (∀ (c : FindCriteria) (idx : Option Nat) (rs : List DataRecord),
      rs.filter (matchesCriteria c) = [] → findRecord c idx rs = none) := by
  have hfirst : ∀ (c : FindCriteria) (rs : List DataRecord),
      findFirst c rs = (rs.filter (matchesCriteria c)).head? := by
    intro c rs
    induction rs with
    | nil => rfl
    | cons r rest ih =>
      by_cases h : matchesCriteria c r
      · simp [findFirst, h, List.filter_cons]
      · simp [findFirst, h, List.filter_cons, ih]
  have hnth : ∀ (c : FindCriteria) (n : Nat) (rs : List DataRecord),
      findNth c n rs = (rs.filter (matchesCriteria c)).get? (n - 1) := by
    intro c n rs
    induction rs generalizing n with
    | nil => simp [findNth]
    | cons r rest ih =>
      by_cases h : matchesCriteria c r
      · by_cases hn : n ≤ 1
        · have h0 : n - 1 = 0 := by omega
          simp [findNth, h, hn, List.filter_cons, h0]
        · have h2 : n - 1 = (n - 1 - 1) + 1 := by omega
          rw [show findNth c n (r :: rest) = findNth c (n - 1) rest by
            simp [findNth, h, hn], ih, List.filter_cons, if_pos h, h2]
          rfl
      · simp [findNth, h, List.filter_cons, ih]
  refine ⟨fun c rs => hfirst c rs, fun c n rs => hnth c n rs, ?_⟩
  intro c idx rs hnil
  match idx with
  | none => rw [findRecord, hfirst, hnil]; rfl
  | some n => rw [findRecord, hnth, hnil]; rfl

/-- Witness for the hypothesis of C4's theorem: on the empty record list
nothing matches and the find returns `none`; on the T1B fixture the
wildcard-index find returns the first wire-order match. -/
theorem structured_find_semantics_witness :
    findRecord ⟨.Instantaneous, .Volume, some 0, some 0⟩ (some 1) [] = none ∧
    findRecord ⟨.Instantaneous, .Volume, some 0, some 0⟩ none (frameRecords t1bFrame) =
      ((frameRecords t1bFrame).filter
        (matchesCriteria ⟨.Instantaneous, .Volume, some 0, some 0⟩)).head? :=
  ⟨structured_find_semantics.2.2 ⟨.Instantaneous, .Volume, some 0, some 0⟩ (some 1) [] rfl,
   structured_find_semantics.1 ⟨.Instantaneous, .Volume, some 0, some 0⟩ (frameRecords t1bFrame)⟩

/-- C6: when a structured or literal query matches no record the result is
the normal negative outcome `none` ("not found"), not an error:
`processContent` is a total function (no exception propagates), and the
driver field bound to a missed query is left absent — its stored value is
unchanged from before the query.  Stated for each of the four queries of
`MeterUltrimis::processContent`. -/
theorem not_found_leaves_fields_absent :
    ∀ (s : UltrimisState) (rs : List DataRecord),
      (findKey .Instantaneous .Volume 0 0 rs = none →
        (processContent rs s).total_water_consumption_m3 =
          s.total_water_consumption_m3) ∧
      (extractDVuint24 rs "03FD17" = none →
        (processContent rs s).info_codes = s.info_codes) ∧
      (findKey .Instantaneous .Volume 1 0 rs = none →
        (processContent rs s).target_water_consumption_m3 =
          s.target_water_consumption_m3) ∧
      (extractDVdouble rs "04933C" = none →
        (processContent rs s).total_backward_flow_m3 =
          s.total_backward_flow_m3) := by
  have hTotal : ∀ rs s, (updateTotal rs s).info_codes = s.info_codes ∧
      (updateTotal rs s).target_water_consumption_m3 = s.target_water_consumption_m3 ∧
      (updateTotal rs s).total_backward_flow_m3 = s.total_backward_flow_m3 := by
    intro rs s
    unfold updateTotal
    cases findKey .Instantaneous .Volume 0 0 rs with
    | none => exact ⟨rfl, rfl, rfl⟩
    | some k => cases h : extractDVdouble rs k <;> simp [h]
  have hInfo : ∀ rs s, (updateInfo rs s).total_water_consumption_m3 = s.total_water_consumption_m3 ∧
      (updateInfo rs s).target_water_consumption_m3 = s.target_water_consumption_m3 ∧
      (updateInfo rs s).total_backward_flow_m3 = s.total_backward_flow_m3 := by
    intro rs s
    unfold updateInfo
    cases extractDVuint24 rs "03FD17" <;> exact ⟨rfl, rfl, rfl⟩
  have hTarget : ∀ rs s, (updateTarget rs s).total_water_consumption_m3 = s.total_water_consumption_m3 ∧
      (updateTarget rs s).info_codes = s.info_codes ∧
      (updateTarget rs s).total_backward_flow_m3 = s.total_backward_flow_m3 := by
    intro rs s
    unfold updateTarget
    cases findKey .Instantaneous .Volume 1 0 rs with
    | none => exact ⟨rfl, rfl, rfl⟩
    | some k => cases h : extractDVdouble rs k <;> simp [h]
  have hBackward : ∀ rs s, (updateBackward rs s).total_water_consumption_m3 = s.total_water_consumption_m3 ∧
      (updateBackward rs s).info_codes = s.info_codes ∧
      (updateBackward rs s).target_water_consumption_m3 = s.target_water_consumption_m3 := by
    intro rs s
    unfold updateBackward
    cases extractDVdouble rs "04933C" <;> exact ⟨rfl, rfl, rfl⟩
  intro s rs
  refine ⟨fun h1 => ?_, fun h2 => ?_, fun h3 => ?_, fun h4 => ?_⟩
  · have hmiss : updateTotal rs s = s := by unfold updateTotal; rw [h1]
    rw [processContent, (hBackward rs _).1, (hTarget rs _).1, (hInfo rs _).1, hmiss]
  · have hmiss : ∀ t, updateInfo rs t = t := by
      intro t; unfold updateInfo; rw [h2]
    rw [processContent, (hBackward rs _).2.1, (hTarget rs _).2.1, hmiss,
      (hTotal rs _).1]
  · have hmiss : ∀ t, updateTarget rs t = t := by
      intro t; unfold updateTarget; rw [h3]
    rw [processContent, (hBackward rs _).2.2, hmiss, (hInfo rs _).2.1,
      (hTotal rs _).2.1]
  · have hmiss : ∀ t, updateBackward rs t = t := by
      intro t; unfold updateBackward; rw [h4]
    rw [processContent, hmiss, (hTarget rs _).2.2, (hInfo rs _).2.2,
      (hTotal rs _).2.2]

/-- Witness for the hypotheses of C6's theorem: on an empty record list
every query misses and every field keeps its prior value. -/
theorem not_found_leaves_fields_absent_witness :
    (processContent [] ⟨7, 8, 9, 10⟩).total_water_consumption_m3 = 8 ∧
    (processContent [] ⟨7, 8, 9, 10⟩).info_codes = 7 ∧
    (processContent [] ⟨7, 8, 9, 10⟩).target_water_consumption_m3 = 9 ∧
    (processContent [] ⟨7, 8, 9, 10⟩).total_backward_flow_m3 = 10 :=
  ⟨(not_found_leaves_fields_absent ⟨7, 8, 9, 10⟩ []).1 rfl,
   (not_found_leaves_fields_absent ⟨7, 8, 9, 10⟩ []).2.1 rfl,
   (not_found_leaves_fields_absent ⟨7, 8, 9, 10⟩ []).2.2.1 rfl,
   (not_found_leaves_fields_absent ⟨7, 8, 9, 10⟩ []).2.2.2 rfl⟩

/-- Helper: an extension chain is nonempty and splits the input. -/
theorem extChain_eq : ∀ {bs : List Nat} {p : List Nat × List Nat},
    extChain bs = some p → p.1 ≠ [] ∧ p.1 ++ p.2 = bs := by
  intro bs
  induction bs with
  | nil => intro p h; cases h
  | cons b rest ih =>
    intro p h
    rw [extChain] at h
    by_cases hb : (b &&& 0x80 == 0) = true
    · rw [if_pos hb] at h
      cases h
      exact ⟨by simp, rfl⟩
    · rw [if_neg hb] at h
      cases hr : extChain rest with
      | none => rw [hr] at h; cases h
      | some q =>
        rw [hr] at h
        obtain ⟨c, r⟩ := q
        cases h
        obtain ⟨hne, happ⟩ := ih hr
        exact ⟨by simp, by simpa using happ⟩

/-- Helper: a parsed record consumes at least one byte, and its declared
wire length plus the leftover bytes account exactly for the input. -/
theorem parseRecord_consumes : ∀ {bs : List Nat} {p : DataRecord × List Nat},
    parseRecord bs = some p →
    1 ≤ p.1.length ∧ p.1.length + p.2.length = bs.length := by
  intro bs p h
  unfold parseRecord at h
  cases h1 : extChain bs with
  | none => rw [h1] at h; cases h
  | some q1 =>
    obtain ⟨difs, rest1⟩ := q1
    rw [h1] at h
    dsimp only at h
    cases h2 : extChain rest1 with
    | none => rw [h2] at h; cases h
    | some q2 =>
      obtain ⟨vifs, rest2⟩ := q2
      rw [h2] at h
      dsimp only at h
      obtain ⟨hne1, happ1⟩ := extChain_eq h1
      obtain ⟨hne2, happ2⟩ := extChain_eq h2
      have hlen1 : difs.length + rest1.length = bs.length := by
        rw [← happ1]; simp
      have hlen2 : vifs.length + rest2.length = rest1.length := by
        rw [← happ2]; simp
      have hdpos : 1 ≤ difs.length := List.length_pos.mpr hne1
      cases hw : difWidth (difs.headD 0) with
      | fixed n =>
        rw [hw] at h
        dsimp only at h
        by_cases hn : n ≤ rest2.length
        · rw [if_pos hn] at h
          cases h
          simp only [List.length_drop]
          constructor <;> omega
        · rw [if_neg hn] at h; cases h
      | lvar =>
        rw [hw] at h
        dsimp only at h
        cases rest2 with
        | nil => cases h
        | cons l rest3 =>
          dsimp only at h
          by_cases hl : l ≤ 0xBF ∧ l ≤ rest3.length
          · rw [if_pos hl] at h
            cases h
            simp only [List.length_drop, List.length_cons] at *
            constructor <;> omega
          · rw [if_neg hl] at h; cases h
      | toEnd =>
        rw [hw] at h
        dsimp only at h
        cases h
        simp only [List.length_nil]
        constructor <;> omega

/-- Helper: chaining is monotone in the lower bound. -/
theorem chained_mono {lo lo' : Nat} (h : lo ≤ lo') :
    ∀ {l : List DataRecord}, Chained lo' l → Chained lo l := by
  intro l hc
  cases l with
  | nil => trivial
  | cons r rs => exact ⟨le_trans h hc.1, hc.2⟩

/-- Helper: the scanner produces a chained record list starting at the
offset it was launched from. -/
theorem scanAux_chained :
    ∀ (fuel off : Nat) (bs : List Nat), Chained off (scanAux fuel off bs).1 := by
  intro fuel
  induction fuel with
  | zero => intro off bs; cases bs <;> trivial
  | succ fuel ih =>
    intro off bs
    cases bs with
    | nil => trivial
    | cons d rest =>
      rw [scanAux]
      by_cases hf : d = 0x2F
      · rw [if_pos hf]
        exact chained_mono (Nat.le_succ off) (ih (off + 1) rest)
      · rw [if_neg hf]
        cases hp : parseRecord (d :: rest) with
        | none => trivial
        | some p =>
          obtain ⟨rec, rest2⟩ := p
          exact ⟨le_refl off, ih (off + rec.length) rest2⟩

/-- Helper: every scanned record has a positive wire length. -/
theorem scanAux_length_pos :
    ∀ (fuel off : Nat) (bs : List Nat) (r : DataRecord),
      r ∈ (scanAux fuel off bs).1 → 1 ≤ r.length := by
  intro fuel
  induction fuel with
  | zero => intro off bs r hr; cases bs <;> simp [scanAux] at hr
  | succ fuel ih =>
    intro off bs r hr
    cases bs with
    | nil => simp [scanAux] at hr
    | cons d rest =>
      rw [scanAux] at hr
      by_cases hf : d = 0x2F
      · rw [if_pos hf] at hr
        exact ih (off + 1) rest r hr
      · rw [if_neg hf] at hr
        cases hp : parseRecord (d :: rest) with
        | none => rw [hp] at hr; simp at hr
        | some p =>
          obtain ⟨rec, rest2⟩ := p
          rw [hp] at hr
          rcases List.mem_cons.mp hr with hr | hr
          · subst hr
            exact (parseRecord_consumes hp).1
          · exact ih (off + rec.length) rest2 r hr

/-- Helper: on an accepted byte sequence the scanner produces exactly one
record per DIF/VIF group counted by `countGroupsAux`. -/
theorem scanAux_count :
    ∀ (fuel : Nat) (bs : List Nat) (off : Nat),
      (scanAux fuel off bs).2 = true →
      (scanAux fuel off bs).1.length = countGroupsAux fuel bs := by
  intro fuel
  induction fuel with
  | zero =>
    intro bs off h
    cases bs with
    | nil => rfl
    | cons d rest => cases h
  | succ fuel ih =>
    intro bs off h
    cases bs with
    | nil => rfl
    | cons d rest =>
      rw [scanAux] at h ⊢
      rw [countGroupsAux]
      by_cases hf : d = 0x2F
      · rw [if_pos hf] at h ⊢
        rw [if_pos hf]
        exact ih rest (off + 1) h
      · rw [if_neg hf] at h ⊢
        rw [if_neg hf]
        cases hp : parseRecord (d :: rest) with
        | none => rw [hp] at h; cases h
        | some p =>
          obtain ⟨rec, rest2⟩ := p
          rw [hp] at h
          dsimp only at h ⊢
          simp only [List.length_cons]
          rw [ih rest2 (off + rec.length) h]
          omega

/-- Helper: a chained record list satisfies the non-overlap chain. -/
theorem chained_chain_le :
    ∀ {l : List DataRecord} {lo : Nat}, Chained lo l →
      List.Chain' (fun a b => a.offset + a.length ≤ b.offset) l := by
  intro l
  induction l with
  | nil => intro lo _; simp
  | cons r rs ih =>
    intro lo hc
    cases rs with
    | nil => simp
    | cons r' rs' =>
      obtain ⟨_, h3, h4⟩ := hc
      exact List.chain'_cons.mpr ⟨h3, @ih (r.offset + r.length) ⟨h3, h4⟩⟩

/-- Helper: a chained record list with positive lengths has strictly
increasing offsets. -/
theorem chained_chain_lt :
    ∀ {l : List DataRecord} {lo : Nat}, Chained lo l →
      (∀ r ∈ l, 1 ≤ r.length) →
      List.Chain' (fun a b => a.offset < b.offset) l := by
  intro l
  induction l with
  | nil => intro lo _ _; simp
  | cons r rs ih =>
    intro lo hc hlen
    cases rs with
    | nil => simp
    | cons r' rs' =>
      obtain ⟨_, h3, h4⟩ := hc
      have hr : 1 ≤ r.length := hlen r (List.mem_cons_self _ _)
      refine List.chain'_cons.mpr ⟨by omega, ?_⟩
      exact @ih (r.offset + r.length) ⟨h3, h4⟩
        (fun x hx => hlen x (List.mem_cons_of_mem _ hx))

/-- C8: for every telegram byte sequence accepted by the scanner, the
number of records produced equals the number of DIF(+DIFE)/VIF(+VIFE)
groups present in the bytes, and the records' byte offsets are strictly
increasing in wire order with non-overlapping byte ranges (each record's
range ends at or before the next record's offset). -/
theorem scanner_structural_invariants :
    ∀ bs : List Nat, (scanTelegram bs).2 = true →
      (scanTelegram bs).1.length = countGroups bs ∧
      List.Chain' (fun a b => a.offset + a.length ≤ b.offset) (scanTelegram bs).1 ∧
      List.Chain' (fun a b => a.offset < b.offset) (scanTelegram bs).1 := by
  intro bs h
  refine ⟨scanAux_count bs.length bs 0 h, ?_, ?_⟩
  · exact chained_chain_le (scanAux_chained bs.length 0 bs)
  · exact chained_chain_lt (scanAux_chained bs.length 0 bs)
      (fun r hr => scanAux_length_pos bs.length 0 bs r hr)

/-- Witness for the hypothesis of C8's theorem at the ultrimis example
telegram, which the scanner accepts. -/
theorem scanner_structural_invariants_witness :
    (scanTelegram ultrimisExample).2 = true ∧
    (scanTelegram ultrimisExample).1.length = countGroups ultrimisExample ∧
    List.Chain' (fun a b => a.offset + a.length ≤ b.offset)
      (scanTelegram ultrimisExample).1 ∧
    List.Chain' (fun a b => a.offset < b.offset) (scanTelegram ultrimisExample).1 :=
  ⟨by decide, scanner_structural_invariants ultrimisExample (by decide)⟩

/-- Helper: re-encoding a little-endian integer at the width it was
decoded from reproduces the original bytes. -/
theorem leBytes_leUInt :
    ∀ bs : List Nat, (∀ b ∈ bs, b < 256) → leBytes bs.length (leUInt bs) = bs := by
  intro bs
  induction bs with
  | nil => intro _; rfl
  | cons b rest ih =>
    intro h
    have hb : b < 256 := h b (List.mem_cons_self _ _)
    rw [List.length_cons, leBytes, leUInt]
    have h1 : (b % 256 + 256 * leUInt rest) % 256 = b := by omega
    have h2 : (b % 256 + 256 * leUInt rest) / 256 = leUInt rest := by omega
    rw [h1, h2, ih (fun x hx => h x (List.mem_cons_of_mem _ hx))]

/-- C9: for every record with a fixed-width binary integer payload of
valid bytes, decoding the payload to a scaled value, reversing the
VIF-exponent scaling, and re-encoding at the declared width reproduces the
original integer payload bytes. -/
theorem decode_reverse_scale_reencode :
    ∀ (r : DataRecord) (v : ℚ) (e : ℤ),
      (∀ b ∈ r.payload, b < 256) →
      difEncoding (r.difs.headD 0) = .binInt →
      numericValue r = some v →
      vifExponent r = some e →
      reEncode r.payload.length (reverseScale v e) = r.payload := by
  intro r v e hb henc hval hexp
  have hu : uintOf r = some (leUInt r.payload) := by rw [uintOf, henc]
  unfold numericValue at hval
  rw [hu, hexp] at hval
  dsimp only at hval
  have hv : v = (leUInt r.payload : ℚ) * 10 ^ e := (Option.some.inj hval).symm
  have h10 : (10 : ℚ) ^ e ≠ 0 := zpow_ne_zero e (by norm_num)
  have hrs : reverseScale v e = (leUInt r.payload : ℚ) := by
    rw [reverseScale, hv, mul_div_assoc, div_self h10, mul_one]
  rw [reEncode, hrs]
  have hnum : ((leUInt r.payload : ℚ)).num = (leUInt r.payload : ℤ) :=
    Rat.num_natCast _
  rw [hnum, Int.toNat_natCast]
  exact leBytes_leUInt r.payload hb

section RoundTripWitness

attribute [local semireducible] Rat.mul Rat.inv

set_option maxRecDepth 100000

/-- Witness for the hypotheses of C9's theorem at the total-volume record
of the T1B fixture (payload C2080000, VIF exponent -3). -/
theorem decode_reverse_scale_reencode_witness :
    reEncode ([0xC2, 0x08, 0, 0] : List Nat).length
      (reverseScale ((2242 : ℚ) * 10 ^ (-3 : ℤ)) (-3)) = [0xC2, 0x08, 0, 0] :=
  decode_reverse_scale_reencode ⟨0, [0x04], [0x13], [0xC2, 0x08, 0, 0], 6⟩
    ((2242 : ℚ) * 10 ^ (-3 : ℤ)) (-3) (by decide) (by decide) (by decide) (by decide)

end RoundTripWitness

/-- C10: each MeterUltrimis getter asserts that the requested unit is a
Volume unit before returning; under that precondition it returns
`convert(stored_m3, Unit::M3, u)`, so for `u = Unit::M3` it returns the
stored cubic-meter value unchanged, and for a non-Volume unit the
assertion fires (modelled as `none`) instead of returning a value. -/
theorem ultrimis_getters_assert_volume :
    (∀ s : UltrimisState,
      totalWaterConsumption s .M3 = some s.total_water_consumption_m3 ∧
      targetWaterConsumption s .M3 = some s.target_water_consumption_m3 ∧
      totalBackwardFlow s .M3 = some s.total_backward_flow_m3) ∧
    (∀ (s : UltrimisState) (u : Unit), quantityOf u = .Volume →
      totalWaterConsumption s u = some (convert s.total_water_consumption_m3 .M3 u) ∧
      targetWaterConsumption s u = some (convert s.target_water_consumption_m3 .M3 u) ∧
      totalBackwardFlow s u = some (convert s.total_backward_flow_m3 .M3 u)) ∧
    (∀ (s : UltrimisState) (u : Unit), quantityOf u ≠ .Volume →
      totalWaterConsumption s u = none ∧
      targetWaterConsumption s u = none ∧
      totalBackwardFlow s u = none) := by
  refine ⟨fun s => ?_, fun s u h => ?_, fun s u h => ?_⟩
  · simp [totalWaterConsumption, targetWaterConsumption, totalBackwardFlow,
      quantityOf, convert, unitScale]
  · simp [totalWaterConsumption, targetWaterConsumption, totalBackwardFlow, h]
  · simp [totalWaterConsumption, targetWaterConsumption, totalBackwardFlow, h]

/-- Witness for the hypotheses of C10's theorem: the KWH unit is not a
Volume unit, so the getters' assertion fires there; M3 passes through. -/
theorem ultrimis_getters_assert_volume_witness :
    totalWaterConsumption ⟨0, 5, 6, 7⟩ .M3 = some 5 ∧
    quantityOf .L = .Volume ∧
    totalWaterConsumption ⟨0, 5, 6, 7⟩ .L = some (convert 5 .M3 .L) ∧
    quantityOf .KWH ≠ .Volume ∧
    totalWaterConsumption ⟨0, 5, 6, 7⟩ .KWH = none :=
  ⟨(ultrimis_getters_assert_volume.1 ⟨0, 5, 6, 7⟩).1, by decide,
   (ultrimis_getters_assert_volume.2.1 ⟨0, 5, 6, 7⟩ .L (by decide)).1, by decide,
   (ultrimis_getters_assert_volume.2.2 ⟨0, 5, 6, 7⟩ .KWH (by decide)).1⟩

end Wmbus
